import Mathlib

/-!
Shallow embedding of the F1 analytics ETL pipeline
(`scripts/extract_data.py`, `scripts/transform_data.py`,
`scripts/load_data.py`, `scripts/run_pipeline.py`).

Tables are modelled as lists of rows restricted to the columns the verified
properties touch; a pandas `NaN` cell is `Option.none`; a column whose
presence the code branches on is modelled with an explicit flag or an
`Option` on the column's data.  Python float arithmetic on decimal-string
inputs is modelled with exact rationals, and `int(...)` / `.astype(int)`
with truncation toward zero.
-/

namespace F1

/-- Association-list lookup in which a later binding overrides an earlier
one, modelling a Python `dict(zip(keys, values))` built left to right:
the tail (later rows) is consulted first. -/
def dictLookup : List (String × Int) → String → Option Int
  | [], _ => none
  | (a, b) :: t, k =>
    match dictLookup t k with
    | some v => some v
    | none => if a = k then some b else none

/-- A staged reference table (drivers.csv, constructors.csv, circuits.csv)
restricted to the columns the resolver reads: `refs` is the natural-key
column in row order, `idCol` is the surrogate-key column when the CSV has
one (`none` models a table lacking the column). -/
structure RefTable where
  refs : List String
  idCol : Option (List Int)
deriving DecidableEq

/-- Surrogate ids used for the lookup, with the on-the-fly fallback of
`transform_data.py` (`if "driver_id" not in df.columns: df["driver_id"] =
range(1, len(df) + 1)`): the stored column when present, otherwise ids
`1..N` over encounter order. -/
def RefTable.effIds (t : RefTable) : List Int :=
  match t.idCol with
  | some ids => ids
  | none => (List.range t.refs.length).map (fun (i : Nat) => (i : Int) + 1)

/-- Natural-key to surrogate-key lookup with the fallback id assignment,
as built for drivers (`dict(zip(drivers_df["driver_ref"],
drivers_df["driver_id"]))`) and, in `transform_races`, for circuits. -/
def RefTable.lookupId (t : RefTable) (k : String) : Option Int :=
  dictLookup (t.refs.zip t.effIds) k

/-- Resolution of one dependent row's `driver_ref` in
`transform_results` / `transform_qualifying` / `transform_pit_stops` /
`transform_standings`: an unreadable drivers file (the `except` branch)
sets the whole column to the literal 0; otherwise
`df["driver_ref"].map(driver_map)` yields the mapped id, or NaN (`none`)
when the key has no match — there is no `.fillna(0)` on this column. -/
def resolveDriverCell : Option RefTable → String → Option Int
  | none, _ => some 0
  | some t, ref => t.lookupId ref

/-- Resolution of one dependent row's `constructor_ref`: the constructor
map is built as `dict(zip(df["constructor_ref"], df["constructor_id"]))`
with no missing-column fallback, so a constructors table lacking the
`constructor_id` column raises `KeyError` inside the `try` and the
`except` branch sets the whole column to 0; an unreadable file does the
same; otherwise unmatched keys map to NaN (`none`). -/
def resolveConstructorCell : Option RefTable → String → Option Int
  | none, _ => some 0
  | some t, ref =>
    match t.idCol with
    | none => some 0
    | some ids => dictLookup (t.refs.zip ids) ref

/-- Resolution of a race row's `circuit_ref` in `transform_races`:
`df["circuit_ref"].map(circuit_map).fillna(0).astype(int)` — unlike the
dependent-entity paths, unmatched keys become 0, and the circuits table
gets the on-the-fly id fallback. -/
def resolveCircuitCell : Option RefTable → String → Int
  | none, _ => 0
  | some t, ref => (t.lookupId ref).getD 0

/-- The fixed `status_map` of `transform_results` applied via
`df["status"].map(status_map).fillna(14)`: a NaN status or any string
outside the vocabulary becomes 14. -/
def statusId : Option String → Int
  | none => 14
  | some t =>
    if t = "Finished" then 1
    else if t = "+1 Lap" then 11
    else if t = "+2 Laps" then 12
    else if t = "+3 Laps" then 13
    else if t = "Retired" then 14
    else if t = "Disqualified" then 2
    else if t = "Accident" then 3
    else if t = "Collision" then 4
    else if t = "Engine" then 5
    else 14

/-- Python `int(x)` / pandas `.astype(int)` on a float: truncation toward
zero, modelled on exact rationals. -/
def truncToInt (q : ℚ) : Int := if 0 ≤ q then ⌊q⌋ else -⌊-q⌋

/-- Value of a list of decimal digit characters, as read by `int(...)`. -/
def decNat (l : List Char) : Nat := l.foldl (fun a c => a * 10 + (c.toNat - 48)) 0

/-- Python `str.isdigit` (restricted to ASCII digits): nonempty and all
digits. -/
def isDigits (s : String) : Bool := !s.isEmpty && s.toList.all Char.isDigit

/-- Python `int(s) if s.isdigit() else None`. -/
def parseNat? (s : String) : Option Nat :=
  if isDigits s then some (decNat s.toList) else none

/-- Python `float(s)` on a plain nonnegative decimal literal (the shape of
API duration strings), modelled exactly as a rational: an all-digit
string, or digits around a single decimal point with at least one digit
present.  Unparseable strings are `none` (pandas `to_numeric(...,
errors="coerce")` turns them into NaN). -/
def parseDecimal? (s : String) : Option ℚ :=
  match s.toList.splitOn (Char.ofNat 46) with
  | [ip] => if !ip.isEmpty && ip.all Char.isDigit then some (decNat ip) else none
  | [ip, fp] =>
    if (ip.all Char.isDigit && fp.all Char.isDigit) && (!ip.isEmpty || !fp.isEmpty) then
      some ((decNat ip : ℚ) + (decNat fp : ℚ) / (10 : ℚ) ^ fp.length)
    else none
  | _ => none

/-- The synthesized race key `int(f"{year}{round:02d}")` of
`extract_races` / `extract_results` / `extract_qualifying` /
`extract_pit_stops` / `extract_standings`, also computed in
`transform_races` as `(str(year) + str(round).zfill(2)).astype(int)` when
the column is absent: appending the decimal digits of `round`, padded on
the left with zeros to width at least 2, multiplies `year` by ten to the
padded width and adds `round`. -/
def raceId (year round : Nat) : Nat :=
  year * 10 ^ max 2 (Nat.digits 10 round).length + round

/-- The `position` field staged by `extract_results`:
`int(position) if position.isdigit() else None`. -/
def extractPosition (s : String) : Option Nat := parseNat? s

/-- The `position_order` field staged by `extract_results`:
`int(result.get("position", 999)) if position.isdigit() else 999`. -/
def extractPositionOrder (s : String) : Nat := (parseNat? s).getD 999

/-- The `position_order` normalization of `transform_results`: when the
staged table has no `position_order` column it is seeded with
`df["position"].fillna(999)`, and either way the column then passes
through `pd.to_numeric(..., errors="coerce").fillna(999).astype(int)`.
Cells are modelled after the `to_numeric` coercion (`none` = NaN). -/
def positionOrderNorm (hasPOCol : Bool) (position : Option ℚ) (positionOrder : Option ℚ) : Int :=
  let po : Option ℚ := if hasPOCol then positionOrder else some (position.getD 999)
  match po with
  | none => 999
  | some q => truncToInt q

/-- The `milliseconds` field staged by `extract_pit_stops`:
`int(float(duration) * 1000) if duration else None`, for parseable
durations (an unparseable nonempty duration would raise there). -/
def pitMilliseconds (duration : String) : Option Int :=
  if duration.isEmpty then none
  else (parseDecimal? duration).map (fun q => truncToInt (q * 1000))

/-- The per-cell `milliseconds` derivation of `transform_pit_stops` when
the staged table has no usable milliseconds column:
`pd.to_numeric(df["duration"], errors="coerce") * 1000` followed by the
final `pd.to_numeric(...).fillna(0).astype(int)`. -/
def pitMsFromDuration (duration : Option String) : Int :=
  match duration.bind parseDecimal? with
  | none => 0
  | some q => truncToInt (q * 1000)

/-- One page outcome of the paginated fetch loop: `fail` is a
transport-level failure (`_make_request` returned `None`), `ok rows` is
the record list `_extract_table` produced for the page (possibly empty,
covering both an exhausted offset and a malformed payload). -/
inductive PageResp (α : Type) where
  | fail : PageResp α
  | ok : List α → PageResp α
deriving DecidableEq

/-- The pagination loop shared by `extract_circuits`, `extract_drivers`,
`extract_constructors` and the per-year loops of `extract_races` /
`extract_results` / `extract_qualifying` / `extract_pit_stops`: starting
at offset 0, break with the rows accumulated so far on a failed request
or an empty page, append a nonempty page, and continue to the next offset
only when the page held at least `limit` records.  The snapshot is the
list of successive page responses the endpoint would serve. -/
def fetchAll (limit : Nat) : List (PageResp α) → List α
  | [] => []
  | .fail :: _ => []
  | .ok page :: rest =>
    if page.isEmpty then []
    else if page.length < limit then page
    else page ++ fetchAll limit rest

/-- The per-round probing loop of `extract_standings`: a failed or empty
probe is skipped with `continue` (not `break`), every successful probe's
rows are accumulated. -/
def probeAll : List (PageResp α) → List α
  | [] => []
  | .fail :: rest => probeAll rest
  | .ok rows :: rest => rows ++ probeAll rest

/-- A staged results row (results.csv), restricted to the columns
`transform_results` branches on; `position` and `position_order` are
modelled after the `pd.to_numeric(..., errors="coerce")` coercion. -/
structure ResultRow where
  driver_ref : String
  constructor_ref : String
  position : Option ℚ
  position_order : Option ℚ
  status : Option String
deriving DecidableEq

/-- The staged results table with the column-presence flags
`transform_results` tests (`"status" in df.columns`,
`"position_order" not in df.columns`). -/
structure ResultsTable where
  hasStatusCol : Bool
  hasPositionOrderCol : Bool
  rows : List ResultRow
deriving DecidableEq

/-- A normalized results row (results_clean.csv), restricted to the
derived columns the verified properties concern. -/
structure ResultClean where
  driver_id : Option Int
  constructor_id : Option Int
  status_id : Int
  position_order : Int
deriving DecidableEq

/-- Per-row normalization applied by `transform_results`. -/
def transformResultRow (drivers constructors : Option RefTable)
    (hasStatus hasPO : Bool) (r : ResultRow) : ResultClean :=
  { driver_id := resolveDriverCell drivers r.driver_ref
    constructor_id := resolveConstructorCell constructors r.constructor_ref
    status_id := if hasStatus then statusId r.status else 1
    position_order := positionOrderNorm hasPO r.position r.position_order }

/-- `transform_results`: a missing or under-10-byte results.csv writes an
empty output table and returns; otherwise every row is normalized. -/
def transformResults (results : Option ResultsTable)
    (drivers constructors : Option RefTable) : List ResultClean :=
  match results with
  | none => []
  | some t => t.rows.map (transformResultRow drivers constructors t.hasStatusCol t.hasPositionOrderCol)

/-- A staged races row (races.csv); `race_id = some v` models a staged
table that has the `race_id` column (extraction always writes it), which
`transform_races` passes through with `.astype(int)`, while `none` models
the absent-column branch that recomputes
`(str(year) + str(round).zfill(2)).astype(int)`. -/
structure RaceRow where
  year : Nat
  round : Nat
  race_id : Option Int
  circuit_ref : String
deriving DecidableEq

/-- A normalized races row (races_clean.csv), restricted to the derived
columns the verified properties concern. -/
structure RaceClean where
  race_id : Int
  circuit_id : Int
deriving DecidableEq

/-- Per-row normalization applied by `transform_races`. -/
def transformRaceRow (circuits : Option RefTable) (r : RaceRow) : RaceClean :=
  { race_id :=
      match r.race_id with
      | some v => v
      | none => (raceId r.year r.round : Int)
    circuit_id := resolveCircuitCell circuits r.circuit_ref }

/-- `transform_races` reads races.csv with no existence guard, so a
missing file raises (`Except.error`); the circuits reference is read
inside a `try`, so its absence only defaults `circuit_id` to 0. -/
def transformRaces (races : Option (List RaceRow)) (circuits : Option RefTable) :
    Except String (List RaceClean) :=
  match races with
  | none => .error "races.csv missing"
  | some rs => .ok (rs.map (transformRaceRow circuits))

/-- A staged qualifying row (qualifying.csv); an empty lap-time string is
staged as NaN (`none`) when read back. -/
structure QualRow where
  driver_ref : String
  constructor_ref : String
  q1 : Option String
  q2 : Option String
  q3 : Option String
deriving DecidableEq

/-- A normalized qualifying row (qualifying_clean.csv). -/
structure QualClean where
  driver_id : Option Int
  constructor_id : Option Int
  q1 : String
  q2 : String
  q3 : String
deriving DecidableEq

/-- Per-row normalization applied by `transform_qualifying`
(`df[col].fillna("")` for q1/q2/q3). -/
def transformQualRow (drivers constructors : Option RefTable) (r : QualRow) : QualClean :=
  { driver_id := resolveDriverCell drivers r.driver_ref
    constructor_id := resolveConstructorCell constructors r.constructor_ref
    q1 := r.q1.getD ""
    q2 := r.q2.getD ""
    q3 := r.q3.getD "" }

/-- `transform_qualifying` reads qualifying.csv with no existence guard:
a missing file raises and is modelled as `Except.error`. -/
def transformQualifying (qual : Option (List QualRow)) (drivers constructors : Option RefTable) :
    Except String (List QualClean) :=
  match qual with
  | none => .error "qualifying.csv missing"
  | some rs => .ok (rs.map (transformQualRow drivers constructors))

/-- A staged pit-stop row (pit_stops.csv). -/
structure PitRow where
  driver_ref : String
  duration : Option String
  milliseconds : Option ℚ
deriving DecidableEq

/-- The staged pit-stop table with the column-presence flags
`transform_pit_stops` tests. -/
structure PitTable where
  hasMsCol : Bool
  hasDurationCol : Bool
  rows : List PitRow
deriving DecidableEq

/-- A normalized pit-stop row (pit_stops_clean.csv), restricted to the
derived columns the verified properties concern. -/
structure PitClean where
  driver_id : Option Int
  milliseconds : Int
deriving DecidableEq

/-- The milliseconds cell after `transform_pit_stops`: when the staged
table has no milliseconds column or the column is all-NaN
(`deriveFromDuration`), the column is rebuilt from `duration` (or set to
0 if there is no duration column either); in every case the final
`pd.to_numeric(...).fillna(0).astype(int)` applies. -/
def pitMsCell (deriveFromDuration hasDurationCol : Bool) (r : PitRow) : Int :=
  if deriveFromDuration then
    if hasDurationCol then pitMsFromDuration r.duration else 0
  else
    match r.milliseconds with
    | none => 0
    | some q => truncToInt q

/-- `transform_pit_stops`: a missing or under-10-byte pit_stops.csv
writes an empty output table and returns; otherwise rows are normalized,
with the all-NaN test made once over the whole milliseconds column. -/
def transformPitStops (pits : Option PitTable) (drivers : Option RefTable) : List PitClean :=
  match pits with
  | none => []
  | some t =>
    let deriv := !t.hasMsCol || t.rows.all (fun r => r.milliseconds.isNone)
    t.rows.map (fun r =>
      { driver_id := resolveDriverCell drivers r.driver_ref
        milliseconds := pitMsCell deriv t.hasDurationCol r })

/-- Constructor-standings normalization (`transform_standings`, first
half), restricted to the resolved foreign-key column: a missing or tiny
file yields an empty frame and the stage skips it. -/
def transformConstructorStandings (standings : Option (List String))
    (constructors : Option RefTable) : List (Option Int) :=
  match standings with
  | none => []
  | some refs => refs.map (resolveConstructorCell constructors)

/-- Driver-standings normalization (`transform_standings`, second half),
restricted to the resolved foreign-key column. -/
def transformDriverStandings (standings : Option (List String))
    (drivers : Option RefTable) : List (Option Int) :=
  match standings with
  | none => []
  | some refs => refs.map (resolveDriverCell drivers)

/-- `transform_circuits`: a missing or under-10-byte circuits.csv writes
an empty output; otherwise `circuit_id` is reassigned unconditionally as
`range(1, len(df) + 1)`.  Output restricted to (circuit_ref,
circuit_id). -/
def transformCircuits (circuits : Option RefTable) : List (String × Int) :=
  match circuits with
  | none => []
  | some t => t.refs.zip ((List.range t.refs.length).map (fun (i : Nat) => (i : Int) + 1))

/-- `transform_drivers` reads drivers.csv with no existence guard (a
missing file raises), and assigns `driver_id = range(1, len(df) + 1)`
only when the column is absent.  Output restricted to (driver_ref,
driver_id). -/
def transformDrivers (drivers : Option RefTable) : Except String (List (String × Int)) :=
  match drivers with
  | none => .error "drivers.csv missing"
  | some t => .ok (t.refs.zip t.effIds)

/-- The staged raw files `transform_all` consumes; `none` models a file
that is missing or too small to parse (under 10 bytes, which is also
what an empty extraction leaves behind for the header-less tables). -/
structure RawData where
  circuits : Option RefTable
  constructors : Option RefTable
  drivers : Option RefTable
  races : Option (List RaceRow)
  results : Option ResultsTable
  qualifying : Option (List QualRow)
  pitStops : Option PitTable
  constructorStandings : Option (List String)
  driverStandings : Option (List String)
deriving DecidableEq

/-- A set of output tables (the processed CSV directory, and likewise the
loaded database): `none` means the table has never been written. -/
structure TableStore where
  circuits : Option (List (String × Int))
  drivers : Option (List (String × Int))
  races : Option (List RaceClean)
  results : Option (List ResultClean)
  qualifying : Option (List QualClean)
  pitStops : Option (List PitClean)
  constructorStandings : Option (List (Option Int))
  driverStandings : Option (List (Option Int))
deriving DecidableEq

/-- A store in which nothing has been written yet. -/
def TableStore.init : TableStore :=
  ⟨none, none, none, none, none, none, none, none⟩

/-- `transform_all`: the stages run in order over the processed-file
store `ps`; the first exception (from the unguarded reads of
drivers.csv, races.csv or qualifying.csv) is caught, reported and
re-raised, aborting the remaining stages — the returned flag is `false`
and later tables are left untouched.  `transform_standings` writes each
standings output only when its frame is nonempty. -/
def transformAllRun (raw : RawData) (ps : TableStore) : TableStore × Bool :=
  let ps1 := { ps with circuits := some (transformCircuits raw.circuits) }
  match transformDrivers raw.drivers with
  | .error _ => (ps1, false)
  | .ok d =>
    let ps2 := { ps1 with drivers := some d }
    match transformRaces raw.races raw.circuits with
    | .error _ => (ps2, false)
    | .ok rcs =>
      let ps3 := { ps2 with races := some rcs }
      let ps4 := { ps3 with results := some (transformResults raw.results raw.drivers raw.constructors) }
      match transformQualifying raw.qualifying raw.drivers raw.constructors with
      | .error _ => (ps4, false)
      | .ok q =>
        let ps5 := { ps4 with qualifying := some q }
        let ps6 := { ps5 with pitStops := some (transformPitStops raw.pitStops raw.drivers) }
        let cst := transformConstructorStandings raw.constructorStandings raw.constructors
        let dst := transformDriverStandings raw.driverStandings raw.drivers
        let ps7 := { ps6 with
          constructorStandings := if cst.isEmpty then ps6.constructorStandings else some cst
          driverStandings := if dst.isEmpty then ps6.driverStandings else some dst }
        (ps7, true)

/-- One `_load_table` call fed from one processed CSV: a missing
processed file makes `pd.read_csv` raise (`none` result), an empty frame
is skipped leaving the destination table as it was, and a nonempty frame
fully replaces it. -/
def loadTable (processedTbl : Option (List α)) (old : Option (List α)) :
    Option (Option (List α)) :=
  match processedTbl with
  | none => none
  | some rows => some (if rows.isEmpty then old else some rows)

/-- `load_all` over the claim-relevant tables, in source order: each
stage reads its processed CSV and replaces the destination table; the
first raised exception (missing processed file) aborts the remaining
loads, leaving later tables untouched. -/
def loadAllRun (p ld : TableStore) : TableStore × Bool :=
  match loadTable p.circuits ld.circuits with
  | none => (ld, false)
  | some c =>
    let ld1 := { ld with circuits := c }
    match loadTable p.drivers ld1.drivers with
    | none => (ld1, false)
    | some d =>
      let ld2 := { ld1 with drivers := d }
      match loadTable p.races ld2.races with
      | none => (ld2, false)
      | some rc =>
        let ld3 := { ld2 with races := rc }
        match loadTable p.results ld3.results with
        | none => (ld3, false)
        | some rs =>
          let ld4 := { ld3 with results := rs }
          match loadTable p.qualifying ld4.qualifying with
          | none => (ld4, false)
          | some q =>
            let ld5 := { ld4 with qualifying := q }
            match loadTable p.pitStops ld5.pitStops with
            | none => (ld5, false)
            | some pt =>
              let ld6 := { ld5 with pitStops := pt }
              match loadTable p.constructorStandings ld6.constructorStandings with
              | none => (ld6, false)
              | some cs =>
                let ld7 := { ld6 with constructorStandings := cs }
                match loadTable p.driverStandings ld7.driverStandings with
                | none => (ld7, false)
                | some ds => ({ ld7 with driverStandings := ds }, true)

/-- One race record as delivered by the API (the fields
`extract_races` reads). -/
structure RaceApi where
  year : Nat
  round : Nat
  circuit_ref : String
deriving DecidableEq

/-- One result record as delivered by the API: the raw `position` string
(empty when absent) and the optional `status` (defaulted to "Finished"
by `result.get("status", "Finished")` at extraction). -/
structure ResultApi where
  driver_ref : String
  constructor_ref : String
  position : String
  status : Option String
deriving DecidableEq

/-- One qualifying record as delivered by the API; `Q1`/`Q2`/`Q3` default
to the empty string at extraction. -/
structure QualApi where
  driver_ref : String
  constructor_ref : String
  q1 : String
  q2 : String
  q3 : String
deriving DecidableEq

/-- One pit-stop record as delivered by the API; `duration` defaults to
the empty string at extraction. -/
structure PitApi where
  driver_ref : String
  duration : String
deriving DecidableEq

/-- Row staged by `extract_races` (race_id is always written, as
`int(f"{year}{round:02d}")`). -/
def extractRaceRow (r : RaceApi) : RaceRow :=
  { year := r.year
    round := r.round
    race_id := some ((raceId r.year r.round : Nat) : Int)
    circuit_ref := r.circuit_ref }

/-- Row staged by `extract_results`; an empty CSV cell reads back as NaN,
so the staged `position` is `none` exactly when the raw string is not all
digits. -/
def extractResultRow (r : ResultApi) : ResultRow :=
  { driver_ref := r.driver_ref
    constructor_ref := r.constructor_ref
    position := (extractPosition r.position).map (fun n => (n : ℚ))
    position_order := some ((extractPositionOrder r.position : ℚ))
    status := some (r.status.getD "Finished") }

/-- Row staged by `extract_qualifying`; empty lap-time strings read back
as NaN. -/
def extractQualRow (r : QualApi) : QualRow :=
  { driver_ref := r.driver_ref
    constructor_ref := r.constructor_ref
    q1 := if r.q1.isEmpty then none else some r.q1
    q2 := if r.q2.isEmpty then none else some r.q2
    q3 := if r.q3.isEmpty then none else some r.q3 }

/-- Row staged by `extract_pit_stops`. -/
def extractPitRow (p : PitApi) : PitRow :=
  { driver_ref := p.driver_ref
    duration := if p.duration.isEmpty then none else some p.duration
    milliseconds := (pitMilliseconds p.duration).map (fun n => (n : ℚ)) }

/-- A fixed upstream snapshot: the page responses each resource's
pagination loop would receive in order, with the year-scoped resources
carrying one page sequence per year and the standings carrying one probe
per (year, round).  Records are already in the flat per-record shape the
extractor maps each raw payload entry to. -/
structure Snapshot where
  circuitPages : List (PageResp String)
  constructorPages : List (PageResp String)
  driverPages : List (PageResp String)
  racePages : List (List (PageResp RaceApi))
  resultPages : List (List (PageResp ResultApi))
  qualPages : List (List (PageResp QualApi))
  pitPages : List (List (PageResp PitApi))
  constStandProbes : List (PageResp String)
  driverStandProbes : List (PageResp String)

/-- `extract_all` over a snapshot: every resource is fetched page by page
(year-scoped resources concatenate their per-year loops), mapped to
staged rows, and written wholesale to the raw directory.  An extraction
that produced no rows leaves a file the transformer cannot use (no
header columns, under 10 bytes), modelled as `none`; drivers and
constructors always receive an inserted 1..N surrogate-id column, while
circuits are staged without one. -/
def extractAll (s : Snapshot) : RawData :=
  let circuitRefs := fetchAll 100 s.circuitPages
  let constructorRefs := fetchAll 100 s.constructorPages
  let driverRefs := fetchAll 100 s.driverPages
  let raceRows := (s.racePages.map (fetchAll 100)).flatten.map extractRaceRow
  let resultRows := (s.resultPages.map (fetchAll 100)).flatten.map extractResultRow
  let qualRows := (s.qualPages.map (fetchAll 100)).flatten.map extractQualRow
  let pitRows := (s.pitPages.map (fetchAll 100)).flatten.map extractPitRow
  let constStand := probeAll s.constStandProbes
  let driverStand := probeAll s.driverStandProbes
  { circuits := if circuitRefs.isEmpty then none else some ⟨circuitRefs, none⟩
    constructors := some ⟨constructorRefs, some ((List.range constructorRefs.length).map (fun (i : Nat) => (i : Int) + 1))⟩
    drivers := some ⟨driverRefs, some ((List.range driverRefs.length).map (fun (i : Nat) => (i : Int) + 1))⟩
    races := if raceRows.isEmpty then none else some raceRows
    results := if resultRows.isEmpty then none
               else some { hasStatusCol := true, hasPositionOrderCol := true, rows := resultRows }
    qualifying := if qualRows.isEmpty then none else some qualRows
    pitStops := if pitRows.isEmpty then none
                else some { hasMsCol := true, hasDurationCol := true, rows := pitRows }
    constructorStandings := if constStand.isEmpty then none else some constStand
    driverStandings := if driverStand.isEmpty then none else some driverStand }

/-- The persistent state one pipeline invocation reads and writes: the
raw staging directory, the processed directory and the loaded
database. -/
structure PipelineState where
  raw : RawData
  processed : TableStore
  loaded : TableStore

/-- `run_full_pipeline` without skip flags: extract (full overwrite of
the raw directory from the snapshot), then transform, then — only if the
transform did not raise — load; a raised exception ends the run with
whatever was already written. -/
def runPipeline (s : Snapshot) (st : PipelineState) : PipelineState :=
  let raw := extractAll s
  let tr := transformAllRun raw st.processed
  if tr.2 then
    let ld := loadAllRun tr.1 st.loaded
    { raw := raw, processed := tr.1, loaded := ld.1 }
  else
    { raw := raw, processed := tr.1, loaded := st.loaded }

theorem dictLookup_cons (a : String) (b : Int) (t : List (String × Int)) (k : String) :
    dictLookup ((a, b) :: t) k =
      match dictLookup t k with
      | some v => some v
      | none => if a = k then some b else none := rfl

theorem dictLookup_eq_none (l : List (String × Int)) (k : String)
    (h : k ∉ l.map Prod.fst) : dictLookup l k = none := by
  induction l with
  | nil => rfl
  | cons a t ih =>
    obtain ⟨a1, a2⟩ := a
    simp only [List.map_cons, List.mem_cons, not_or] at h
    rw [dictLookup_cons, ih h.2]
    have hne : a1 ≠ k := fun hk => h.1 hk.symm
    simp [hne]

theorem dictLookup_of_mem (l : List (String × Int)) (k : String) (v : Int)
    (hnd : (l.map Prod.fst).Nodup) (hmem : (k, v) ∈ l) : dictLookup l k = some v := by
  induction l with
  | nil => exact absurd hmem (List.not_mem_nil _)
  | cons a t ih =>
    obtain ⟨a1, a2⟩ := a
    simp only [List.map_cons, List.nodup_cons] at hnd
    rcases List.mem_cons.mp hmem with heq | htail
    · obtain ⟨h1, h2⟩ := Prod.mk.injEq .. ▸ heq
      subst h1; subst h2
      have hnone : dictLookup t k = none := by
        refine dictLookup_eq_none t k (fun hk => hnd.1 ?_)
        simpa using hk
      rw [dictLookup_cons, hnone]
      simp
    · rw [dictLookup_cons, ih hnd.2 htail]

theorem effIds_of_none (refs : List String) :
    (RefTable.mk refs none).effIds = (List.range refs.length).map (fun (i : Nat) => (i : Int) + 1) := rfl

theorem statusId_mem_range (s : String) :
    statusId (some s) ∈ ([1, 2, 3, 4, 5, 11, 12, 13, 14] : List Int) := by
  simp only [statusId]
  split_ifs <;> decide

theorem statusId_default (s : String)
    (hs : s ∉ (["Finished", "Disqualified", "Accident", "Collision", "Engine",
                "+1 Lap", "+2 Laps", "+3 Laps", "Retired"] : List String)) :
    statusId (some s) = 14 := by
  simp only [statusId]
  split_ifs <;> simp_all

/-- C1 (amended): in the dependent-entity normalizations a matched natural
key resolves to the mapped surrogate id, but an unmatched key resolves to a
missing value (NaN), not to the claimed sentinel 0; the sentinel 0 on an
unmatched key appears only in the race table's `circuit_id` resolution.
Resolution is a total function, so it never raises. -/
theorem C1_thm :
    (∀ (refs : List String) (ids : List Int) (ref : String),
        refs.length ≤ ids.length → ref ∉ refs →
        resolveDriverCell (some ⟨refs, some ids⟩) ref = none ∧
        resolveConstructorCell (some ⟨refs, some ids⟩) ref = none ∧
        resolveCircuitCell (some ⟨refs, some ids⟩) ref = 0) ∧
    (∀ (refs : List String) (ids : List Int) (ref : String) (v : Int),
        refs.length ≤ ids.length → refs.Nodup → (ref, v) ∈ refs.zip ids →
        resolveDriverCell (some ⟨refs, some ids⟩) ref = some v) := by
  have key : ∀ (refs : List String) (ids : List Int) (ref : String),
      refs.length ≤ ids.length → ref ∉ refs → dictLookup (refs.zip ids) ref = none := by
    intro refs ids ref hlen hmem
    refine dictLookup_eq_none _ _ ?_
    rw [List.map_fst_zip _ _ hlen]
    exact hmem
  constructor
  · intro refs ids ref hlen hmem
    refine ⟨key refs ids ref hlen hmem, key refs ids ref hlen hmem, ?_⟩
    simp only [resolveCircuitCell, RefTable.lookupId, RefTable.effIds,
      key refs ids ref hlen hmem, Option.getD_none]
  · intro refs ids ref v hlen hnd hmem
    have : dictLookup (refs.zip ids) ref = some v := by
      refine dictLookup_of_mem _ _ _ ?_ hmem
      rw [List.map_fst_zip _ _ hlen]
      exact hnd
    simpa [resolveDriverCell, RefTable.lookupId, RefTable.effIds] using this

/-- C1 witness: the spec scenario — with reference driver table
{max_verstappen ↦ 1}, driver_ref "max_verstappen" resolves to id 1 and
"unknown_driver" resolves to no id. -/
theorem C1_witness :
    resolveDriverCell (some ⟨["max_verstappen"], some [1]⟩) "max_verstappen" = some 1 ∧
    resolveDriverCell (some ⟨["max_verstappen"], some [1]⟩) "unknown_driver" = none :=
  ⟨C1_thm.2 ["max_verstappen"] [1] "max_verstappen" 1 (by decide) (by decide) (by decide),
   (C1_thm.1 ["max_verstappen"] [1] "unknown_driver" (by decide) (by decide)).1⟩

/-- C1 counterexample: with reference driver table {max_verstappen ↦ 1}, a
result row with driver_ref "unknown_driver" resolves to NaN (`none`), not
to the sentinel 0 the claim states. -/
theorem C1_cex :
    resolveDriverCell (some ⟨["max_verstappen"], some [1]⟩) "unknown_driver" ≠ some 0 ∧
    resolveDriverCell (some ⟨["max_verstappen"], some [1]⟩) "unknown_driver" = none := by
  decide

/-- C2: the status mapping is total with range inside
{1,2,3,4,5,11,12,13,14}, maps the nine vocabulary strings exactly as
specified, and sends every string outside the vocabulary to 14. -/
theorem C2_thm :
    (∀ s : String, statusId (some s) ∈ ([1, 2, 3, 4, 5, 11, 12, 13, 14] : List Int)) ∧
    statusId (some "Finished") = 1 ∧ statusId (some "Disqualified") = 2 ∧
    statusId (some "Accident") = 3 ∧ statusId (some "Collision") = 4 ∧
    statusId (some "Engine") = 5 ∧ statusId (some "+1 Lap") = 11 ∧
    statusId (some "+2 Laps") = 12 ∧ statusId (some "+3 Laps") = 13 ∧
    statusId (some "Retired") = 14 ∧
    (∀ s : String,
        s ∉ (["Finished", "Disqualified", "Accident", "Collision", "Engine",
              "+1 Lap", "+2 Laps", "+3 Laps", "Retired"] : List String) →
        statusId (some s) = 14) :=
  ⟨statusId_mem_range, by decide, by decide, by decide, by decide, by decide,
   by decide, by decide, by decide, by decide, statusId_default⟩

/-- C2 witness: the out-of-vocabulary hypothesis discharged at the
concrete status string "Hydraulics". -/
theorem C2_witness :
    statusId (some "Hydraulics") = 14 ∧
    statusId (some "Finished") ∈ ([1, 2, 3, 4, 5, 11, 12, 13, 14] : List Int) :=
  ⟨C2_thm.2.2.2.2.2.2.2.2.2.2 "Hydraulics" (by decide), C2_thm.1 "Finished"⟩

/-- C8 (amended): when a reference table lacks its surrogate-key column,
the on-the-fly 1..N encounter-order assignment is applied for the driver
and circuit lookups, but not for the constructor lookup, where the
missing column makes the whole resolved column the sentinel 0. -/
theorem C8_thm :
    (∀ (refs : List String) (i : Nat) (hi : i < refs.length), refs.Nodup →
        resolveDriverCell (some ⟨refs, none⟩) (refs.get ⟨i, hi⟩) = some ((i : Int) + 1) ∧
        resolveCircuitCell (some ⟨refs, none⟩) (refs.get ⟨i, hi⟩) = (i : Int) + 1) ∧
    (∀ (refs : List String) (ref : String),
        resolveConstructorCell (some ⟨refs, none⟩) ref = some 0) := by
  constructor
  · intro refs i hi hnd
    have hidlen : ((List.range refs.length).map (fun (j : Nat) => (j : Int) + 1)).length
        = refs.length := by
      rw [List.length_map, List.length_range]
    have hlen : refs.length ≤
        ((List.range refs.length).map (fun (j : Nat) => (j : Int) + 1)).length :=
      le_of_eq hidlen.symm
    have hzi : i < (refs.zip
        ((List.range refs.length).map (fun (j : Nat) => (j : Int) + 1))).length := by
      rw [List.length_zip, hidlen, min_self]
      exact hi
    have hget : (refs.zip
        ((List.range refs.length).map (fun (j : Nat) => (j : Int) + 1))).get ⟨i, hzi⟩
        = (refs.get ⟨i, hi⟩, (i : Int) + 1) := by
      simp only [List.get_eq_getElem, List.getElem_zip, List.getElem_map, List.getElem_range]
    have hmem : (refs.get ⟨i, hi⟩, (i : Int) + 1) ∈
        refs.zip ((List.range refs.length).map (fun (j : Nat) => (j : Int) + 1)) := by
      rw [← hget]
      exact List.get_mem _ _ _
    have hlook : dictLookup
        (refs.zip ((List.range refs.length).map (fun (j : Nat) => (j : Int) + 1)))
        (refs.get ⟨i, hi⟩) = some ((i : Int) + 1) := by
      refine dictLookup_of_mem _ _ _ ?_ hmem
      rw [List.map_fst_zip _ _ hlen]
      exact hnd
    have hlook2 : (RefTable.mk refs none).lookupId (refs.get ⟨i, hi⟩) = some ((i : Int) + 1) :=
      hlook
    constructor
    · exact hlook2
    · show ((RefTable.mk refs none).lookupId (refs.get ⟨i, hi⟩)).getD 0 = (i : Int) + 1
      rw [hlook2]
      rfl
  · intro refs ref
    rfl

/-- C8 witness: a two-row driver reference table without a driver_id
column resolves its second ref to encounter-order id 2, while a
constructors table without the column resolves everything to 0. -/
theorem C8_witness :
    resolveDriverCell (some ⟨["a", "b"], none⟩) "b" = some 2 ∧
    resolveConstructorCell (some ⟨["red_bull"], none⟩) "ferrari" = some 0 := by
  refine ⟨?_, C8_thm.2 ["red_bull"] "ferrari"⟩
  have h1 := (C8_thm.1 ["a", "b"] 1 (by decide) (by decide)).1
  simpa using h1

/-- C8 counterexample: a constructors reference table lacking its
constructor_id column resolves a matching constructor_ref to the sentinel
0, not to the encounter-order id 1 the claim requires. -/
theorem C8_cex :
    resolveConstructorCell (some ⟨["red_bull"], none⟩) "red_bull" = some 0 ∧
    resolveConstructorCell (some ⟨["red_bull"], none⟩) "red_bull" ≠ some 1 := by
  decide

/-- C10: when the staged results table has no status column at all, result
normalization assigns status_id = 1 to every row, unlike the fallback 14
used for out-of-vocabulary strings when the column is present. -/
theorem C10_thm :
    (∀ (rows : List ResultRow) (hasPO : Bool) (drivers constructors : Option RefTable)
        (out : ResultClean),
        out ∈ transformResults (some ⟨false, hasPO, rows⟩) drivers constructors →
        out.status_id = 1) ∧
    (∀ (drivers constructors : Option RefTable) (hasPO : Bool) (r : ResultRow) (s : String),
        r.status = some s →
        s ∉ (["Finished", "Disqualified", "Accident", "Collision", "Engine",
              "+1 Lap", "+2 Laps", "+3 Laps", "Retired"] : List String) →
        (transformResultRow drivers constructors true hasPO r).status_id = 14) := by
  constructor
  · intro rows hasPO drivers constructors out hmem
    simp only [transformResults, List.mem_map] at hmem
    obtain ⟨r, _, hr⟩ := hmem
    rw [← hr]
    rfl
  · intro drivers constructors hasPO r s hstat hs
    simp only [transformResultRow, if_pos rfl, hstat]
    exact statusId_default s hs

/-- C10 witness: a one-row staged results table without a status column
normalizes to status_id = 1, and with the column present an unknown
status string gives 14. -/
theorem C10_witness :
    (transformResultRow none none false true
        ⟨"d", "c", none, none, some "Gearbox"⟩).status_id = 1 ∧
    (transformResultRow none none true true
        ⟨"d", "c", none, none, some "Gearbox"⟩).status_id = 14 := by
  constructor
  · exact C10_thm.1 [⟨"d", "c", none, none, some "Gearbox"⟩] true none none _
      (by decide)
  · exact C10_thm.2 none none true ⟨"d", "c", none, none, some "Gearbox"⟩ "Gearbox" rfl
      (by decide)

theorem truncToInt_natCast (n : Nat) : truncToInt ((n : Nat) : ℚ) = n := by
  unfold truncToInt
  rw [if_pos (by positivity)]
  exact_mod_cast Int.floor_natCast n

theorem truncToInt_eq_floor (q : ℚ) (h : 0 ≤ q) : truncToInt q = ⌊q⌋ := if_pos h

theorem digits_len_le_two (r : Nat) (h : r < 100) : (Nat.digits 10 r).length ≤ 2 := by
  rcases Nat.eq_zero_or_pos r with hr | hr
  · subst hr
    simp
  · have hpow : r < 10 ^ 2 := by
      rw [show (10 : ℕ) ^ 2 = 100 from by norm_num]
      exact h
    have hlog : Nat.log 10 r < 2 :=
      (Nat.lt_pow_iff_log_lt (by norm_num) hr.ne').mp hpow
    rw [Nat.digits_len 10 r (by norm_num) hr.ne']
    omega

theorem raceId_eq (y r : Nat) (h : r < 100) : raceId y r = y * 100 + r := by
  unfold raceId
  rw [Nat.max_eq_left (digits_len_le_two r h)]
  norm_num

/-- C3: a normalized result row's position_order equals the raw numeric
position when the raw position string is numeric, and 999 otherwise, both
through the staged extraction column and through the fallback branch that
seeds a missing position_order column from `position`; the value is a
total integer, never null. -/
theorem C3_thm :
    (∀ (drivers constructors : Option RefTable) (r : ResultApi) (p : Nat),
        extractPosition r.position = some p →
        (transformResultRow drivers constructors true true (extractResultRow r)).position_order
          = p) ∧
    (∀ (drivers constructors : Option RefTable) (r : ResultApi),
        extractPosition r.position = none →
        (transformResultRow drivers constructors true true (extractResultRow r)).position_order
          = 999) ∧
    (∀ (n : Nat) (po : Option ℚ),
        positionOrderNorm false (some ((n : Nat) : ℚ)) po = n ∧
        positionOrderNorm false none po = 999) := by
  refine ⟨?_, ?_, ?_⟩
  · intro drivers constructors r p h
    have hpo : extractPositionOrder r.position = p := by
      unfold extractPositionOrder
      unfold extractPosition at h
      rw [h]
      rfl
    show positionOrderNorm true ((extractPosition r.position).map (fun n => (n : ℚ)))
        (some ((extractPositionOrder r.position : Nat) : ℚ)) = p
    rw [hpo]
    simp only [positionOrderNorm, if_pos rfl]
    exact truncToInt_natCast p
  · intro drivers constructors r h
    have hpo : extractPositionOrder r.position = 999 := by
      unfold extractPositionOrder
      unfold extractPosition at h
      rw [h]
      rfl
    show positionOrderNorm true ((extractPosition r.position).map (fun n => (n : ℚ)))
        (some ((extractPositionOrder r.position : Nat) : ℚ)) = 999
    rw [hpo]
    simp only [positionOrderNorm, if_pos rfl]
    exact_mod_cast truncToInt_natCast 999
  · intro n po
    constructor
    · show truncToInt ((n : Nat) : ℚ) = (n : Int)
      exact truncToInt_natCast n
    · show truncToInt (999 : ℚ) = 999
      rw [truncToInt_eq_floor _ (by norm_num), Int.floor_eq_iff]
      norm_num

/-- C3 witness: raw position "7" yields position_order 7 and raw position
"R" yields 999. -/
theorem C3_witness :
    (transformResultRow none none true true
        (extractResultRow ⟨"ver", "rbr", "7", some "Finished"⟩)).position_order = 7 ∧
    (transformResultRow none none true true
        (extractResultRow ⟨"ver", "rbr", "R", some "Collision"⟩)).position_order = 999 :=
  ⟨C3_thm.1 none none ⟨"ver", "rbr", "7", some "Finished"⟩ 7 (by decide),
   C3_thm.2.1 none none ⟨"ver", "rbr", "R", some "Collision"⟩ (by decide)⟩

/-- C4: for round < 100 the synthesized race_id equals year*100 + round
(both as staged by extraction and as passed through race normalization),
and on that domain the encoding is injective. -/
theorem C4_thm : ∀ (y r : Nat), r < 100 →
    raceId y r = y * 100 + r ∧
    (∀ (c : Option RefTable) (cref : String),
        (transformRaceRow c (extractRaceRow ⟨y, r, cref⟩)).race_id = ((y * 100 + r : Nat) : Int)) ∧
    (∀ y2 r2 : Nat, r2 < 100 → raceId y r = raceId y2 r2 → y = y2 ∧ r = r2) := by
  intro y r h
  refine ⟨raceId_eq y r h, ?_, ?_⟩
  · intro c cref
    show ((raceId y r : Nat) : Int) = ((y * 100 + r : Nat) : Int)
    rw [raceId_eq y r h]
  · intro y2 r2 h2 heq
    rw [raceId_eq y r h, raceId_eq y2 r2 h2] at heq
    omega

/-- C4 witness: the spec scenarios year=2024, round=1 ↦ 202401 and
round=10 ↦ 202410. -/
theorem C4_witness : raceId 2024 1 = 202401 ∧ raceId 2024 10 = 202410 := by
  constructor
  · have h := (C4_thm 2024 1 (by norm_num)).1
    norm_num at h
    exact h
  · have h := (C4_thm 2024 10 (by norm_num)).1
    norm_num at h
    exact h

theorem parseDecimal_nonneg (d : String) (q : ℚ) (h : parseDecimal? d = some q) : 0 ≤ q := by
  unfold parseDecimal? at h
  split at h
  · split_ifs at h with h1
    obtain rfl := Option.some.inj h
    positivity
  · split_ifs at h with h1
    obtain rfl := Option.some.inj h
    positivity
  · exact Option.noConfusion h

theorem parseDecimal_ne_empty (d : String) (q : ℚ) (h : parseDecimal? d = some q) :
    d.isEmpty = false := by
  by_contra hne
  have hd : d = "" := by
    have ht : d.isEmpty = true := by simpa using hne
    exact (String.isEmpty_iff d).mp ht
  rw [hd, show parseDecimal? "" = none from rfl] at h
  exact Option.noConfusion h

/-- C5 (amended): for a pit-stop row with a parseable duration and no
independently supplied milliseconds, the derived milliseconds equal
duration*1000 truncated toward zero (equivalently, floored — durations
are nonnegative), not rounded to nearest; the scenario duration "21.5" ↦
21500 still holds.  Both the extraction-time derivation and the
transform-time rebuild agree. -/
theorem C5_thm :
    (∀ (d : String) (q : ℚ), parseDecimal? d = some q →
        0 ≤ q ∧ pitMilliseconds d = some ⌊q * 1000⌋ ∧
        pitMsFromDuration (some d) = ⌊q * 1000⌋) ∧
    pitMilliseconds "21.5" = some 21500 := by
  constructor
  · intro d q h
    have hq : 0 ≤ q := parseDecimal_nonneg d q h
    have hq1000 : 0 ≤ q * 1000 := by positivity
    refine ⟨hq, ?_, ?_⟩
    · unfold pitMilliseconds
      rw [parseDecimal_ne_empty d q h, if_neg (by simp : ¬(false = true)), h]
      rw [show Option.map (fun q => truncToInt (q * 1000)) (some q)
            = some (truncToInt (q * 1000)) from rfl]
      rw [truncToInt_eq_floor _ hq1000]
    · unfold pitMsFromDuration
      rw [Option.some_bind', h]
      exact truncToInt_eq_floor _ hq1000
  · have h1 : parseDecimal? "21.5"
        = some (((21 : Nat) : ℚ) + ((5 : Nat) : ℚ) / (10 : ℚ) ^ 1) := rfl
    have h2 : (((21 : Nat) : ℚ) + ((5 : Nat) : ℚ) / (10 : ℚ) ^ 1) = (43 : ℚ) / 2 := by
      norm_num
    unfold pitMilliseconds
    rw [show ("21.5" : String).isEmpty = false from rfl,
        if_neg (by simp : ¬(false = true)), h1, h2]
    rw [show Option.map (fun q => truncToInt (q * 1000)) (some ((43 : ℚ) / 2))
          = some (truncToInt ((43 : ℚ) / 2 * 1000)) from rfl]
    rw [truncToInt_eq_floor _ (by norm_num)]
    have : (⌊(43 : ℚ) / 2 * 1000⌋ : Int) = 21500 := by
      rw [Int.floor_eq_iff]
      norm_num
    rw [this]

/-- C5 witness: the parseable-duration hypothesis discharged at the
concrete duration "21.5", recovering the spec scenario 21500. -/
theorem C5_witness :
    pitMilliseconds "21.5" = some ⌊((43 : ℚ) / 2) * 1000⌋ ∧
    pitMsFromDuration (some "21.5") = ⌊((43 : ℚ) / 2) * 1000⌋ := by
  have hp : parseDecimal? "21.5" = some ((43 : ℚ) / 2) := by
    rw [show parseDecimal? "21.5"
          = some (((21 : Nat) : ℚ) + ((5 : Nat) : ℚ) / (10 : ℚ) ^ 1) from rfl]
    norm_num
  exact ⟨(C5_thm.1 "21.5" ((43 : ℚ) / 2) hp).2.1, (C5_thm.1 "21.5" ((43 : ℚ) / 2) hp).2.2⟩

/-- C5 counterexample: duration "21.5007" stages milliseconds 21500,
though 21.5007 × 1000 rounded to the nearest integer is 21501 — the code
truncates instead of rounding. -/
theorem C5_cex :
    parseDecimal? "21.5007" = some ((215007 : ℚ) / 10000) ∧
    pitMilliseconds "21.5007" = some 21500 ∧
    round (((215007 : ℚ) / 10000) * 1000) = 21501 ∧
    pitMilliseconds "21.5007" ≠ some (round (((215007 : ℚ) / 10000) * 1000)) := by
  have hp : parseDecimal? "21.5007" = some ((215007 : ℚ) / 10000) := by
    rw [show parseDecimal? "21.5007"
          = some (((21 : Nat) : ℚ) + ((5007 : Nat) : ℚ) / (10 : ℚ) ^ 4) from rfl]
    norm_num
  have hms : pitMilliseconds "21.5007" = some 21500 := by
    unfold pitMilliseconds
    rw [show ("21.5007" : String).isEmpty = false from rfl,
        if_neg (by simp : ¬(false = true)), hp]
    rw [show Option.map (fun q => truncToInt (q * 1000)) (some ((215007 : ℚ) / 10000))
          = some (truncToInt ((215007 : ℚ) / 10000 * 1000)) from rfl]
    rw [truncToInt_eq_floor _ (by norm_num)]
    have hf : (⌊(215007 : ℚ) / 10000 * 1000⌋ : Int) = 21500 := by
      rw [Int.floor_eq_iff]
      norm_num
    rw [hf]
  have hround : round (((215007 : ℚ) / 10000) * 1000) = 21501 := by
    rw [round_eq, Int.floor_eq_iff]
    norm_num
  refine ⟨hp, hms, hround, ?_⟩
  rw [hms, hround]
  decide

/-- Rows a page response contributes to the accumulated extraction. -/
def pageRows : PageResp α → List α
  | .fail => []
  | .ok rows => rows

theorem fetchAll_cons_full {α : Type} (limit : Nat) (rows : List α) (tail : List (PageResp α))
    (hlen : rows.length = limit) (hlim : 0 < limit) :
    fetchAll limit (.ok rows :: tail) = rows ++ fetchAll limit tail := by
  have hne : rows.isEmpty = false := by
    cases rows with
    | nil =>
      simp at hlen
      omega
    | cons a t => rfl
  show (if rows.isEmpty then [] else if rows.length < limit then rows
        else rows ++ fetchAll limit tail) = rows ++ fetchAll limit tail
  rw [hne, if_neg (by simp : ¬(false = true)), if_neg (by omega)]

/-- C7: after any run of full pages, a transport failure or an empty page
ends the resource's extraction with exactly the rows accumulated so far
(no exception is possible: the result is a total function), a final short
nonempty page is appended and then pagination stops, and a run of full
pages is consumed in its entirety. -/
theorem C7_thm {α : Type} (limit : Nat) (ps : List (PageResp α))
    (hlim : 0 < limit)
    (hfull : ∀ pg ∈ ps, ∃ rows, pg = PageResp.ok rows ∧ rows.length = limit) :
    (∀ qs, fetchAll limit (ps ++ PageResp.fail :: qs) = (ps.map pageRows).flatten) ∧
    (∀ qs, fetchAll limit (ps ++ PageResp.ok [] :: qs) = (ps.map pageRows).flatten) ∧
    (∀ (last : List α) (qs : List (PageResp α)), last ≠ [] → last.length < limit →
        fetchAll limit (ps ++ PageResp.ok last :: qs) = (ps.map pageRows).flatten ++ last) ∧
    fetchAll limit ps = (ps.map pageRows).flatten := by
  induction ps with
  | nil =>
    refine ⟨fun qs => rfl, fun qs => rfl, fun last qs hne hlt => ?_, rfl⟩
    have hne2 : last.isEmpty = false := by
      cases last with
      | nil => exact absurd rfl hne
      | cons a t => rfl
    show (if last.isEmpty then [] else if last.length < limit then last
          else last ++ fetchAll limit qs) = ([] : List (List α)).flatten ++ last
    rw [hne2, if_neg (by simp : ¬(false = true)), if_pos hlt]
    simp
  | cons pg rest ih =>
    obtain ⟨rows, rfl, hlen⟩ := hfull pg (List.mem_cons_self pg rest)
    have hfull2 : ∀ pg2 ∈ rest, ∃ r2, pg2 = PageResp.ok r2 ∧ r2.length = limit :=
      fun pg2 hm => hfull pg2 (List.mem_cons_of_mem _ hm)
    obtain ⟨ihfail, ihempty, ihshort, ihall⟩ := ih hfull2
    refine ⟨fun qs => ?_, fun qs => ?_, fun last qs hne hlt => ?_, ?_⟩
    · rw [List.cons_append, fetchAll_cons_full limit rows _ hlen hlim, ihfail qs]
      simp [pageRows]
    · rw [List.cons_append, fetchAll_cons_full limit rows _ hlen hlim, ihempty qs]
      simp [pageRows]
    · rw [List.cons_append, fetchAll_cons_full limit rows _ hlen hlim, ihshort last qs hne hlt]
      simp [pageRows]
    · rw [fetchAll_cons_full limit rows _ hlen hlim, ihall]
      simp [pageRows]

/-- C7 witness: with page size 2, a full page followed by a transport
failure yields just the first page's rows, and a full page followed by a
short page yields both pages' rows. -/
theorem C7_witness :
    fetchAll 2 [PageResp.ok [1, 2], PageResp.fail, PageResp.ok [5]] = [1, 2] ∧
    fetchAll 2 [PageResp.ok [1, 2], PageResp.ok [3]] = [1, 2, 3] := by
  have h := C7_thm 2 [PageResp.ok [1, 2]] (by norm_num)
    (by
      intro pg hpg
      simp only [List.mem_singleton] at hpg
      exact ⟨[1, 2], hpg, rfl⟩)
  constructor
  · have h1 := h.1 [PageResp.ok [5]]
    simpa [pageRows] using h1
  · have h2 := h.2.2.1 [3] [] (by decide) (by decide)
    simpa [pageRows] using h2

/-- C6 (amended): a missing staged input is confined to the affected
entity only for the guarded stages — circuits, results and pit stops
write an empty output table and the run continues, and a missing
standings input leaves the prior standings output untouched — provided
drivers.csv, races.csv and qualifying.csv are present; a missing file for
one of those three stages raises and aborts the whole normalization
run. -/
theorem C6_thm : ∀ (raw : RawData) (ps : TableStore),
    raw.drivers.isSome = true → raw.races.isSome = true → raw.qualifying.isSome = true →
    (transformAllRun raw ps).2 = true ∧
    (raw.circuits = none → (transformAllRun raw ps).1.circuits = some []) ∧
    (raw.results = none → (transformAllRun raw ps).1.results = some []) ∧
    (raw.pitStops = none → (transformAllRun raw ps).1.pitStops = some []) ∧
    (raw.constructorStandings = none →
        (transformAllRun raw ps).1.constructorStandings = ps.constructorStandings) ∧
    (raw.driverStandings = none →
        (transformAllRun raw ps).1.driverStandings = ps.driverStandings) := by
  intro raw ps hd hr hq
  obtain ⟨d, hd⟩ := Option.isSome_iff_exists.mp hd
  obtain ⟨r, hr⟩ := Option.isSome_iff_exists.mp hr
  obtain ⟨q, hq⟩ := Option.isSome_iff_exists.mp hq
  refine ⟨?_, ?_, ?_, ?_, ?_, ?_⟩
  · simp [transformAllRun, transformDrivers, transformRaces, transformQualifying, hd, hr, hq]
  · intro hc
    simp [transformAllRun, transformDrivers, transformRaces, transformQualifying,
      transformCircuits, hd, hr, hq, hc]
  · intro hres
    simp [transformAllRun, transformDrivers, transformRaces, transformQualifying,
      transformResults, hd, hr, hq, hres]
  · intro hpit
    simp [transformAllRun, transformDrivers, transformRaces, transformQualifying,
      transformPitStops, hd, hr, hq, hpit]
  · intro hcs
    simp [transformAllRun, transformDrivers, transformRaces, transformQualifying,
      transformConstructorStandings, hd, hr, hq, hcs]
  · intro hds
    simp [transformAllRun, transformDrivers, transformRaces, transformQualifying,
      transformDriverStandings, hd, hr, hq, hds]

/-- C6 witness: with drivers, races and qualifying staged and everything
else missing, the run completes and the results output is the empty
table. -/
theorem C6_witness :
    (transformAllRun ⟨none, none, some ⟨[], some []⟩, some [], none, some [], none, none, none⟩
        TableStore.init).2 = true ∧
    (transformAllRun ⟨none, none, some ⟨[], some []⟩, some [], none, some [], none, none, none⟩
        TableStore.init).1.results = some [] := by
  have h := C6_thm ⟨none, none, some ⟨[], some []⟩, some [], none, some [], none, none, none⟩
    TableStore.init rfl rfl rfl
  exact ⟨h.1, h.2.2.1 rfl⟩

/-- C6 counterexample: with a missing qualifying.csv (drivers and races
present), the normalization run aborts — the returned flag is false and
the pit-stop stage, which should have produced an output under the claim,
never ran. -/
theorem C6_cex :
    (transformAllRun ⟨some ⟨[], none⟩, some ⟨[], some []⟩, some ⟨[], some []⟩, some [],
        none, none, none, none, none⟩ TableStore.init).2 = false ∧
    (transformAllRun ⟨some ⟨[], none⟩, some ⟨[], some []⟩, some ⟨[], some []⟩, some [],
        none, none, none, none, none⟩ TableStore.init).1.pitStops = none :=
  ⟨rfl, rfl⟩

theorem transformAllRun_idem (raw : RawData) (ps : TableStore) :
    transformAllRun raw (transformAllRun raw ps).1 = transformAllRun raw ps := by
  cases hd : transformDrivers raw.drivers with
  | error e => simp [transformAllRun, hd]
  | ok d =>
    cases hr : transformRaces raw.races raw.circuits with
    | error e => simp [transformAllRun, hd, hr]
    | ok rcs =>
      cases hq : transformQualifying raw.qualifying raw.drivers raw.constructors with
      | error e => simp [transformAllRun, hd, hr, hq]
      | ok q =>
        simp only [transformAllRun, hd, hr, hq]
        split_ifs <;> rfl

theorem loadAllRun_idem (p ld : TableStore) :
    loadAllRun p (loadAllRun p ld).1 = loadAllRun p ld := by
  rcases p with ⟨pc, pd, pr, prs, pq, pps, pcs, pds⟩
  cases pc <;> cases pd <;> cases pr <;> cases prs <;> cases pq <;> cases pps <;>
    cases pcs <;> cases pds <;>
    simp [loadAllRun, loadTable] <;> (repeat' constructor) <;> (intro h; rw [if_neg h])

/-- C9: over a fixed upstream snapshot the pipeline is deterministic and
idempotent — running the full extract-transform-load pipeline a second
time leaves every staged, processed and loaded table exactly as the first
run left it, and the staged raw tables (with their surrogate-id
assignments) depend only on the snapshot, not on any prior state. -/
theorem C9_thm : ∀ (s : Snapshot) (st : PipelineState),
    runPipeline s (runPipeline s st) = runPipeline s st ∧
    (∀ st2 : PipelineState, (runPipeline s st).raw = (runPipeline s st2).raw) := by
  intro s st
  constructor
  · have hT := transformAllRun_idem (extractAll s) st.processed
    have hL := loadAllRun_idem (transformAllRun (extractAll s) st.processed).1 st.loaded
    unfold runPipeline
    by_cases h1 : (transformAllRun (extractAll s) st.processed).2 = true
    · simp [h1, hT, hL]
    · simp [h1, hT]
  · intro st2
    by_cases h1 : (transformAllRun (extractAll s) st.processed).2 = true <;>
      by_cases h2 : (transformAllRun (extractAll s) st2.processed).2 = true <;>
      simp [runPipeline, h1, h2]

end F1
